import Mathlib

/-!
Shallow embedding of the core of the `topos` TCE node, covering:

* `crates/topos-tce-storage/src/lib.rs` — `Height`, `SubnetId`, storage errors;
* `crates/topos-tce-storage/src/tests/position.rs` — the `Position` bincode test;
* `crates/topos-tce/src/app_context/api.rs` — the API event handlers
  (`CertificateSubmitted`, `PeerListPushed`, `GetSourceHead`);
* `crates/topos-tce/src/app_context.rs` — the older `AppContext` handlers
  (`CertificateSubmitted`, `ReadySubscribeReq` response processing);
* `crates/topos-tce-api/src/runtime/mod.rs` — the API `Runtime`
  (`handle_stream_termination`, `handle_runtime_command` / `DispatchCertificate`,
  `handle_internal_command` / `Handshaked`).

Machine integers are embedded as `Nat` with explicit bounds where overflow
matters; Rust `HashMap`s are embedded as association lists (key lookup by
`find?`, removal by `filter`); fallible calls return `Except`.
-/

namespace Topos

/-! ## Primitive identifiers

`PeerId`, the UCI `SubnetId` and `CertificateId` are opaque identifiers for the
code embedded here (libp2p / topos-core types outside this repository); they are
embedded as `Nat`. -/

abbrev PeerId := Nat
abbrev UciSubnetId := Nat
abbrev CertificateId := Nat
abbrev Uuid := Nat

/-! ## UTF-8 at the byte level

`crates/topos-tce-storage/src/lib.rs` parses a `SubnetId` from a Rust `&str` by
raw byte copy (`value.as_bytes()`) and prints it back with
`String::from_utf8_lossy`.  A Rust `&str` is a sequence of Unicode scalar
values stored as UTF-8 bytes; we embed a `&str` as a `List Nat` of scalar
values and make the byte view explicit with a real UTF-8 codec. -/

/-- A Unicode scalar value: below 0x110000 and not a surrogate.  Every element
of a Rust `&str` satisfies this. -/
def ScalarValue (c : Nat) : Prop :=
  c < 0x110000 ∧ ¬(0xD800 ≤ c ∧ c < 0xE000)

instance (c : Nat) : Decidable (ScalarValue c) := by
  unfold ScalarValue; infer_instance

/-- Standard UTF-8 encoding of one scalar value (1 to 4 bytes). -/
def utf8EncodeChar (c : Nat) : List Nat :=
  if c < 0x80 then [c]
  else if c < 0x800 then
    [0xC0 + c / 64, 0x80 + c % 64]
  else if c < 0x10000 then
    [0xE0 + c / 4096, 0x80 + c / 64 % 64, 0x80 + c % 64]
  else
    [0xF0 + c / 262144, 0x80 + c / 4096 % 64, 0x80 + c / 64 % 64, 0x80 + c % 64]

/-- The UTF-8 byte view of a string (Rust `str::as_bytes`); `str::len` is the
length of this list. -/
def utf8Encode (s : List Nat) : List Nat :=
  (s.map utf8EncodeChar).flatten

/-- One step of the lossy UTF-8 decoder: given the decoder state (`none` at a
character boundary, `some (need, acc)` inside a multi-byte sequence awaiting
`need` continuation bytes with accumulator `acc`) and the next byte, return the
scalars emitted and the next state.  Models Rust std `String::from_utf8_lossy`
(an external library function): exact on valid UTF-8; on invalid bytes it
emits U+FFFD (the finer overlong/surrogate rejections of std are elided, as
they are unreachable from bytes produced by a `&str`).  A byte in
`[0x80, 0xC0)` is a continuation byte. -/
def utf8LossyStep (st : Option (Nat × Nat)) (b : Nat) : List Nat × Option (Nat × Nat) :=
  match st with
  | none =>
    if b < 0x80 then ([b], none)
    else if 0xC2 ≤ b ∧ b < 0xE0 then ([], some (1, b - 0xC0))
    else if 0xE0 ≤ b ∧ b < 0xF0 then ([], some (2, b - 0xE0))
    else if 0xF0 ≤ b ∧ b < 0xF5 then ([], some (3, b - 0xF0))
    else ([0xFFFD], none)
  | some (need, acc) =>
    if 0x80 ≤ b ∧ b < 0xC0 then
      if need = 1 then ([acc * 64 + (b - 0x80)], none)
      else ([], some (need - 1, acc * 64 + (b - 0x80)))
    else
      -- invalid sequence: emit a replacement, then reprocess `b` at a boundary
      let (out, st2) := utf8LossyStep none b
      (0xFFFD :: out, st2)

/-- Run the lossy decoder over a byte list from a given state. -/
def utf8LossyLoop (st : Option (Nat × Nat)) : List Nat → List Nat
  | [] => match st with
    | none => []
    | some _ => [0xFFFD]
  | b :: bs =>
    let (out, st2) := utf8LossyStep st b
    out ++ utf8LossyLoop st2 bs

/-- Model of Rust std `String::from_utf8_lossy`, at the scalar-value level. -/
def from_utf8_lossy (bytes : List Nat) : List Nat :=
  utf8LossyLoop none bytes

/-! ## `crates/topos-tce-storage/src/lib.rs` -/

/-- Error kinds of the storage layer that the embedded code distinguishes.
The variants not matched anywhere in the embedded sources are collapsed into
`OtherInternal`. -/
inductive InternalStorageError
  | InvalidSubnetId
  | MissingHeadForSubnet (subnet_id : UciSubnetId)
  | OtherInternal (msg : String)
deriving DecidableEq, Repr

/-- Display of an internal storage error (Rust `to_string`); the handlers
embedded here only pass the text through, never inspect it. -/
def InternalStorageError.display : InternalStorageError → String
  | .InvalidSubnetId => "invalid subnet id"
  | .MissingHeadForSubnet _ => "missing head for subnet"
  | .OtherInternal msg => msg

/-- The `StorageError` as seen by `AppContext::on_api_event`: either a wrapped
`InternalStorageError` or some other storage failure. -/
inductive StorageError
  | InternalStorage (e : InternalStorageError)
  | OtherStorage (msg : String)
deriving DecidableEq, Repr

def StorageError.display : StorageError → String
  | .InternalStorage e => e.display
  | .OtherStorage msg => msg

/-- The `HeightError` from `topos-tce-storage`. -/
inductive HeightError
  | MaximumHeightReached
deriving DecidableEq, Repr

/-- The `Height(pub(crate) u64)` newtype: certificate index in the history of the source
subnet.  The `u64` is embedded as a `Nat`; theorems carry the bound
`val < 2^64`. -/
structure Height where
  val : Nat
deriving DecidableEq, Repr

def Height.ZERO : Height := ⟨0⟩

/-- Method `Height::increment`: the `Self::ZERO` arm returns `Ok(Self(1))`; the
generic arm is `value.checked_add(1)`, which on a `u64` fails exactly at
`u64::MAX = 2^64 - 1`. -/
def Height.increment (h : Height) : Except HeightError Height :=
  if h = Height.ZERO then .ok ⟨1⟩
  else if h.val = 2 ^ 64 - 1 then .error .MaximumHeightReached
  else .ok ⟨h.val + 1⟩

/-- The `SubnetId { inner: [u8; 32] }` struct of `topos-tce-storage`. -/
structure SubnetId where
  inner : List Nat
deriving DecidableEq, Repr

/-- Rust `<&[u8] as TryInto<[u8; 32]>>::try_into` as used in
`SubnetId::try_from`, with the error mapped to `InvalidSubnetId`: succeeds
exactly on slices of length 32. -/
def sliceTryInto32 (bytes : List Nat) : Except InternalStorageError (List Nat) :=
  if bytes.length = 32 then .ok bytes else .error .InvalidSubnetId

/-- Rust `impl TryFrom<&str> for SubnetId`: reject unless `value.len()` (the UTF-8
byte length) is 32, then copy the bytes. -/
def SubnetId.try_from (value : List Nat) : Except InternalStorageError SubnetId :=
  let bytes := utf8Encode value
  if bytes.length ≠ 32 then .error .InvalidSubnetId
  else
    match sliceTryInto32 bytes with
    | .ok arr => .ok ⟨arr⟩
    | .error e => .error e

/-- Rust `impl ToString for SubnetId`: `String::from_utf8_lossy(&self.inner)`. -/
def SubnetId.to_string (s : SubnetId) : List Nat :=
  from_utf8_lossy s.inner

/-! ## `Position` (`crates/topos-tce-storage/src/tests/position.rs`)

Modelled from the spec: the `Position` struct itself is not under `src/` (only
its test is).  Per the spec it is "a 64-bit monotonically increasing index"
with `Position::ZERO` the first position; `bincode::serialize` with bincode default options encodes a `u64` newtype as its 8 bytes in little-endian
fixed-int form. -/

structure Position where
  val : Nat
deriving DecidableEq, Repr

def Position.ZERO : Position := ⟨0⟩

/-- bincode default fixed-int encoding of a `u64`: 8 little-endian bytes. -/
def bincodeSerializeU64 (v : Nat) : List Nat :=
  [v % 256, v / 256 % 256, v / 256 ^ 2 % 256, v / 256 ^ 3 % 256,
   v / 256 ^ 4 % 256, v / 256 ^ 5 % 256, v / 256 ^ 6 % 256, v / 256 ^ 7 % 256]

/-- bincode decoding of a `u64`: exactly 8 little-endian bytes. -/
def bincodeDeserializeU64 (bytes : List Nat) : Option Nat :=
  match bytes with
  | [b0, b1, b2, b3, b4, b5, b6, b7] =>
    some (b0 + 256 * (b1 + 256 * (b2 + 256 * (b3 + 256 *
          (b4 + 256 * (b5 + 256 * (b6 + 256 * b7)))))))
  | _ => none

/-- Modelled from the spec: `bincode::serialize` on a `Position`. -/
def Position.serialize (p : Position) : List Nat :=
  bincodeSerializeU64 p.val

/-- Modelled from the spec: `bincode::deserialize::<Position>`. -/
def Position.deserialize (bytes : List Nat) : Option Position :=
  (bincodeDeserializeU64 bytes).map Position.mk

/-! ## `topos_core::uci::Certificate`

The certificate record, with the fields the embedded handlers construct and
read (spec §3; external crate `topos-core`).  Hashes, proof and signature are
opaque and embedded as `Nat` (their `Default::default()` is 0). -/

structure Certificate where
  id : CertificateId
  prev_id : CertificateId
  source_subnet_id : UciSubnetId
  state_root : Nat
  tx_root_hash : Nat
  target_subnets : List UciSubnetId
  verifier : Nat
  proof : Nat
  signature : Nat
deriving DecidableEq, Repr

/-! ## `crates/topos-tce/src/app_context/api.rs` — API event handlers

Each `ApiEvent` arm of `AppContext::on_api_event` is embedded as a pure
function from the data of the event, together with the results of the external
calls the arm performs, to the observable effects of the arm (the reply sent on the
oneshot channel, the events emitted, the flags set). -/

/-- The `RuntimeError` variants of `topos-tce-api` constructed by the embedded
handlers. -/
inductive RuntimeError
  | UnableToPushPeerList
  | UnknownSubnet (subnet_id : UciSubnetId)
  | UnableToGetSourceHead (subnet_id : UciSubnetId) (msg : String)
deriving DecidableEq, Repr

/-- The `GatekeeperError` as matched in the `PeerListPushed` arm: `NoUpdate` is
distinguished, every other variant is collapsed. -/
inductive GatekeeperError
  | NoUpdate
  | OtherGatekeeper (msg : String)
deriving DecidableEq, Repr

/-- The `Events` of `topos-tce` sent on the `events` channel by the embedded
handlers. -/
inductive Events
  | StableSample
deriving DecidableEq, Repr

instance {ε : Type u} {α : Type v} [DecidableEq ε] [DecidableEq α] :
    DecidableEq (Except ε α) := fun x y =>
  match x, y with
  | .ok a, .ok b =>
    if h : a = b then .isTrue (by rw [h])
    else .isFalse (by intro hc; cases hc; exact h rfl)
  | .ok _, .error _ => .isFalse (by intro hc; cases hc)
  | .error _, .ok _ => .isFalse (by intro hc; cases hc)
  | .error e, .error f =>
    if h : e = f then .isTrue (by rw [h])
    else .isFalse (by intro hc; cases hc; exact h rfl)

/-- Observable effects of one run of the `PeerListPushed` arm. -/
structure PeerListPushedEffects where
  /-- value sent back on the `sender` oneshot channel -/
  reply : Except RuntimeError Unit
  /-- the `Events` sent on the `events` channel -/
  events : List Events
  /-- argument of the `api.set_active_sample` call, if one is made -/
  active_sample_set : Option Bool
  /-- whether `sampler.peer_changed` was invoked -/
  sampler_invoked : Bool
deriving DecidableEq, Repr

/-- The `ApiEvent::PeerListPushed` arm of `AppContext::on_api_event`
(`app_context/api.rs`).  `gatekeeper_result` is what
`gatekeeper.push_peer_list(peers)` returned; `peer_changed_ok` tells whether
`sampler.peer_changed(peers)` returned `Ok` (it is only consulted on the
gatekeeper `Ok` path, where the call is made). -/
def on_peer_list_pushed (gatekeeper_result : Except GatekeeperError (List PeerId))
    (peer_changed_ok : Bool) : PeerListPushedEffects :=
  match gatekeeper_result with
  | .ok _peers =>
    if peer_changed_ok then
      { reply := .ok ()
        events := [Events.StableSample]
        active_sample_set := some true
        sampler_invoked := true }
    else
      { reply := .error RuntimeError.UnableToPushPeerList
        events := []
        active_sample_set := none
        sampler_invoked := true }
  | .error GatekeeperError.NoUpdate =>
    { reply := .ok (), events := [], active_sample_set := none, sampler_invoked := false }
  | .error _ =>
    { reply := .error RuntimeError.UnableToPushPeerList
      events := []
      active_sample_set := none
      sampler_invoked := false }

/-- The sampler state over one outbound role, as far as the claims need it.
Modelled from the spec: the sampler (`topos-tce-broadcast`) is not under
`src/`; per spec §4.2 a candidate is `Pending` while its subscribe request is
in flight and becomes `Confirmed` only on a later `OnEchoSubscribeOk` /
`OnReadySubscribeOk`. -/
structure SamplerRoleState where
  pending : List PeerId
  confirmed : List PeerId
deriving DecidableEq, Repr

/-- Modelled from the spec: the effect of `peer_changed` on one outbound role —
draw fresh candidates to fill the role (all entering `Pending`); confirmation
only happens later, driven by subscribe responses, so immediately after a
successful `peer_changed` no freshly drawn candidate is `Confirmed`. -/
def sampler_peer_changed (candidates : List PeerId) : SamplerRoleState :=
  { pending := candidates, confirmed := [] }

/-- Spec §4.2 step 4: a role is stable when it is at target size and fully
`Confirmed` (no candidate still `Pending`). -/
def SamplerRoleState.stable (st : SamplerRoleState) (target : Nat) : Prop :=
  st.pending = [] ∧ st.confirmed.length = target

/-- Constant `AppContext::DUMMY_INITIAL_CERTIFICATE_ID` (defined outside the embedded
files; its concrete value is irrelevant to every claim, only that `id` and
`prev_id` of the dummy certificate both equal it). -/
def DUMMY_INITIAL_CERTIFICATE_ID : CertificateId := 0

/-- The sentinel dummy certificate built in the `GetSourceHead` arm for a
subnet with no history (`Default::default()` fields are 0 / empty). -/
def dummy_head_certificate (subnet_id : UciSubnetId) : Certificate :=
  { prev_id := DUMMY_INITIAL_CERTIFICATE_ID
    source_subnet_id := subnet_id
    state_root := 0
    tx_root_hash := 0
    target_subnets := []
    verifier := 0
    id := DUMMY_INITIAL_CERTIFICATE_ID
    proof := 0
    signature := 0 }

/-- The `ApiEvent::GetSourceHead` arm of `AppContext::on_api_event`
(`app_context/api.rs`): map the storage error to a `RuntimeError`
(`MissingHeadForSubnet` to `UnknownSubnet`, everything else to
`UnableToGetSourceHead`), then replace an `UnknownSubnet` failure by
`Ok((0, dummy certificate))`.  Returns the value sent on `sender`. -/
def on_get_source_head (subnet_id : UciSubnetId)
    (storage_result : Except StorageError (Nat × Certificate)) :
    Except RuntimeError (Nat × Certificate) :=
  let result : Except RuntimeError (Nat × Certificate) :=
    match storage_result with
    | .ok v => .ok v
    | .error (StorageError.InternalStorage internal) =>
      match internal with
      | .MissingHeadForSubnet sid => .error (RuntimeError.UnknownSubnet sid)
      | _ => .error (RuntimeError.UnableToGetSourceHead subnet_id internal.display)
    | .error e => .error (RuntimeError.UnableToGetSourceHead subnet_id e.display)
  match result with
  | .error (RuntimeError.UnknownSubnet sid) => .ok (0, dummy_head_certificate sid)
  | r => r

/-! ## `crates/topos-tce/src/app_context.rs` — the older `AppContext` -/

abbrev PendingCertificateId := Nat

/-- Observable effects of the `ApiEvent::CertificateSubmitted` arm of the
older `AppContext::on_api_event` (`app_context.rs`). -/
structure CertificateSubmittedEffects where
  /-- value sent back on the `sender` oneshot channel -/
  reply : Except RuntimeError Unit
  /-- whether `trbp_cli.broadcast_new_certificate` was spawned -/
  broadcast_spawned : Bool
deriving DecidableEq, Repr

/-- The `CertificateSubmitted` arm (`app_context.rs`): the result of
`pending_storage.add_pending_certificate` is bound to `_` (discarded), the
broadcast is spawned, and `Ok(())` is sent unconditionally. -/
def on_certificate_submitted
    (add_pending_result : Except StorageError PendingCertificateId) :
    CertificateSubmittedEffects :=
  match add_pending_result with
  | _ => { reply := .ok (), broadcast_spawned := true }

/-- The `SampleType` of `topos-tce-broadcast::sampler`. -/
inductive SampleType
  | EchoSubscription
  | ReadySubscription
  | DeliverySubscription
  | EchoSubscriber
  | ReadySubscriber
deriving DecidableEq, Repr

/-- The `TrbpCommands` constructors carried by `NetworkMessage`s that the embedded
response loops inspect. -/
inductive TrbpCommands
  | OnEchoSubscribeReq (from_peer : PeerId)
  | OnEchoSubscribeOk (from_peer : PeerId)
  | OnReadySubscribeReq (from_peer : PeerId)
  | OnReadySubscribeOk (from_peer : PeerId)
  | OnDoubleEchoOk (from_peer : PeerId)
deriving DecidableEq, Repr

/-- The `NetworkMessage` of `app_context.rs`: the only constructor is `Cmd`. -/
inductive NetworkMessage
  | Cmd (cmd : TrbpCommands)
deriving DecidableEq, Repr

/-- An error of a network request (opaque to the embedded loops). -/
inductive NetworkError
  | RequestFailure (msg : String)
deriving DecidableEq, Repr

/-- A `SamplerCommand::ConfirmPeer` sent on the sampler channel. -/
structure ConfirmPeerCmd where
  peer : PeerId
  sample_type : SampleType
deriving DecidableEq, Repr

/-- Processing of one response in the `TrbpEvents::ReadySubscribeReq` arm of
`on_protocol_event` (`app_context.rs`): an `OnReadySubscribeOk` from `p` sends
`ConfirmPeer` for `p` in `ReadySubscription` and then `ConfirmPeer` for `p` in
`DeliverySubscription`; any other message or a request error only logs. -/
def process_ready_subscribe_response
    (result : Except NetworkError NetworkMessage) : List ConfirmPeerCmd :=
  match result with
  | .ok (NetworkMessage.Cmd (TrbpCommands.OnReadySubscribeOk from_peer)) =>
    [{ peer := from_peer, sample_type := SampleType.ReadySubscription },
     { peer := from_peer, sample_type := SampleType.DeliverySubscription }]
  | .ok _ => []
  | .error _ => []

/-- The whole response loop of the `ReadySubscribeReq` arm: every response is
processed in order. -/
def process_ready_subscribe_results
    (results : List (Except NetworkError NetworkMessage)) : List ConfirmPeerCmd :=
  (results.map process_ready_subscribe_response).flatten

/-! ## `crates/topos-tce-api/src/runtime/mod.rs` — the API `Runtime`

`HashMap`s are embedded as association lists; `HashMap::remove` becomes a
filter on the key and `HashMap::get` a `find?`.  The stream `Sender`s are
opaque handles, embedded as `Nat`. -/

abbrev StreamSender := Nat

/-- The `TargetStreamPosition` of `topos-core` checkpoints, as built in the dispatch
loop. -/
structure TargetStreamPosition where
  target_subnet_id : UciSubnetId
  source_subnet_id : UciSubnetId
  position : Nat
  certificate_id : Option CertificateId
deriving DecidableEq, Repr

/-- The `StreamCommand` frames pushed to a subscriber stream by the dispatch
loop. -/
inductive StreamCommand
  | PushCertificate (certificate : Certificate) (positions : List TargetStreamPosition)
deriving DecidableEq, Repr

/-- The `StreamErrorKind` of `topos-tce-api::stream`, all seven variants matched in
`handle_stream_termination`. -/
inductive StreamErrorKind
  | HandshakeFailed (msg : String)
  | InvalidCommand
  | MalformedTargetCheckpoint
  | Transport (msg : String)
  | PreStartError
  | StreamClosed
  | Timeout
deriving DecidableEq, Repr

/-- The `StreamError { stream_id, kind }` struct. -/
structure StreamError where
  stream_id : Uuid
  kind : StreamErrorKind
deriving DecidableEq, Repr

/-- The `Runtime` state fields read or written by the embedded handlers. -/
structure RuntimeState where
  active_streams : List (Uuid × StreamSender)
  pending_streams : List (Uuid × StreamSender)
  subnet_subscriptions : List (UciSubnetId × List Uuid)
  transient_streams : List (Uuid × StreamSender)
deriving DecidableEq, Repr

/-- Rust `HashMap::remove(&stream_id)` on an association list. -/
def removeKey (m : List (Uuid × StreamSender)) (k : Uuid) : List (Uuid × StreamSender) :=
  m.filter (fun e => e.1 ≠ k)

/-- Method `Runtime::handle_stream_termination`: the `Ok(stream_id)` arm and the one
arm grouping all seven `StreamErrorKind`s both remove the stream id from
`active_streams` and from `pending_streams`. -/
def handle_stream_termination (st : RuntimeState)
    (stream_result : Except StreamError Uuid) : RuntimeState :=
  match stream_result with
  | .ok stream_id =>
    { st with
      active_streams := removeKey st.active_streams stream_id
      pending_streams := removeKey st.pending_streams stream_id }
  | .error { stream_id, kind } =>
    match kind with
    | .HandshakeFailed _ | .InvalidCommand | .MalformedTargetCheckpoint
    | .Transport _ | .PreStartError | .StreamClosed | .Timeout =>
      { st with
        active_streams := removeKey st.active_streams stream_id
        pending_streams := removeKey st.pending_streams stream_id }

/-- The call `positions.remove(&target_subnet_id)` in the dispatch loop, as a pure
lookup: the loop runs over the deduplicated target-subnet set, so each key is
removed at most once and the removal never affects a later iteration. -/
def lookupPosition (positions : List (UciSubnetId × TargetStreamPosition))
    (k : UciSubnetId) : Option TargetStreamPosition :=
  (positions.find? (fun e => e.1 = k)).map (fun e => e.2)

/-- The lookup `subnet_subscriptions.get(&target_subnet_id)`: the subscriber set of one
subnet (empty when absent). -/
def RuntimeState.subscribers (st : RuntimeState) (t : UciSubnetId) : List Uuid :=
  match st.subnet_subscriptions.find? (fun e => e.1 = t) with
  | some e => e.2
  | none => []

/-- Inner loop of the `DispatchCertificate` arm for one target subnet: for each
subscriber uuid, only if it is in `active_streams` and the target position was
present is a `PushCertificate` frame (carrying that single position) sent;
with the position missing the dispatch is logged and skipped. -/
def dispatch_for_subnet (certificate : Certificate)
    (target_position : Option TargetStreamPosition)
    (subscribers : List Uuid) (active_streams : List (Uuid × StreamSender)) :
    List (Uuid × StreamCommand) :=
  subscribers.filterMap (fun uuid =>
    match active_streams.find? (fun e => e.1 = uuid) with
    | some _ =>
      match target_position with
      | some p => some (uuid, StreamCommand.PushCertificate certificate [p])
      | none => none
    | none => none)

/-- The `RuntimeCommand::DispatchCertificate` arm of
`Runtime::handle_runtime_command`: iterate over the certificate target
subnets collected into a set (`dedup`), look the subnet up in
`subnet_subscriptions` and fan out to the subscribers.  Returns the list of
`(stream id, frame)` sends on subscriber streams (the transient-stream
notifications carry the bare certificate and no position and are not part of
any claim). -/
def handle_dispatch_certificate (st : RuntimeState) (certificate : Certificate)
    (positions : List (UciSubnetId × TargetStreamPosition)) :
    List (Uuid × StreamCommand) :=
  (certificate.target_subnets.dedup).flatMap (fun t =>
    match st.subnet_subscriptions.find? (fun e => e.1 = t) with
    | some e => dispatch_for_subnet certificate (lookupPosition positions t) e.2 st.active_streams
    | none => [])

/-- The `InternalRuntimeCommand::Handshaked` arm of
`Runtime::handle_internal_command`: move the stream from `pending_streams` to
`active_streams`, only if it was pending. -/
def handle_handshaked (st : RuntimeState) (stream_id : Uuid) : RuntimeState :=
  match st.pending_streams.find? (fun e => e.1 = stream_id) with
  | some e =>
    { st with
      pending_streams := removeKey st.pending_streams stream_id
      active_streams := (stream_id, e.2) :: st.active_streams }
  | none => st

/-! ## Theorems -/

/-- C2: `Height::increment` returns `Ok(Height(v+1))` for every height value
`v` strictly below `2^64 - 1` (in particular incrementing the initial height 0
yields 1), and returns `Err(MaximumHeightReached)` exactly when the height
value is `2^64 - 1`. -/
theorem height_increment_spec (v : Nat) (_hv : v < 2 ^ 64) :
    (v < 2 ^ 64 - 1 → Height.increment ⟨v⟩ = .ok ⟨v + 1⟩) ∧
    (Height.increment ⟨v⟩ = .error .MaximumHeightReached ↔ v = 2 ^ 64 - 1) := by
  simp only [Height.increment, Height.ZERO, Height.mk.injEq]
  split_ifs with h0 h1
  · refine ⟨fun _ => by rw [h0], ?_⟩
    constructor
    · intro hc; simp at hc
    · intro hmax; exfalso; omega
  · refine ⟨fun h => absurd h1 (by omega), ?_⟩
    exact ⟨fun _ => h1, fun _ => rfl⟩
  · refine ⟨fun _ => rfl, ?_⟩
    constructor
    · intro hc; simp at hc
    · intro hmax; exact absurd hmax h1

theorem height_increment_spec_witness :
    (5 < 2 ^ 64 - 1 → Height.increment ⟨5⟩ = .ok ⟨6⟩) ∧
    (Height.increment ⟨5⟩ = .error .MaximumHeightReached ↔ 5 = 2 ^ 64 - 1) :=
  height_increment_spec 5 (by norm_num)

/-- C8: bincode serialisation of `Position(0)` and `Position(1)` is
deterministic — each produces one fixed byte string — and deserialising those
bytes yields a value equal to the original position. -/
theorem position_bincode_roundtrip :
    Position.serialize Position.ZERO = [0, 0, 0, 0, 0, 0, 0, 0] ∧
    Position.serialize ⟨1⟩ = [1, 0, 0, 0, 0, 0, 0, 0] ∧
    Position.deserialize (Position.serialize Position.ZERO) = some Position.ZERO ∧
    Position.deserialize (Position.serialize ⟨1⟩) = some ⟨1⟩ := by
  decide

/-- C7: when the gatekeeper returns `NoUpdate`, the `PeerListPushed` handler
replies `Ok(())` and causes no downstream work: `peer_changed` is not invoked,
the active-sample flag is not set, and no `StableSample` event is emitted. -/
theorem peer_list_pushed_noupdate_frame (peer_changed_ok : Bool) :
    on_peer_list_pushed (.error GatekeeperError.NoUpdate) peer_changed_ok =
      { reply := .ok ()
        events := []
        active_sample_set := none
        sampler_invoked := false } :=
  rfl

/-- C9: the `CertificateSubmitted` arm acknowledges the submitter with
`Ok(())` whatever `add_pending_certificate` returned — including any error —
because the result is discarded. -/
theorem certificate_submitted_ack_unconditional
    (add_pending_result : Except StorageError PendingCertificateId) :
    (on_certificate_submitted add_pending_result).reply = .ok () ∧
    (on_certificate_submitted add_pending_result).broadcast_spawned = true := by
  cases add_pending_result <;> exact ⟨rfl, rfl⟩

/-- C5: `handle_stream_termination` performs the same cleanup for a graceful
termination and for every one of the seven error kinds: the stream id is
removed from both `active_streams` and `pending_streams`, and nothing else of
the runtime state changes. -/
theorem stream_termination_cleanup (st : RuntimeState)
    (stream_result : Except StreamError Uuid) :
    (∀ i k, handle_stream_termination st (.error ⟨i, k⟩) =
      handle_stream_termination st (.ok i)) ∧
    (handle_stream_termination st stream_result).active_streams =
      removeKey st.active_streams
        (match stream_result with | .ok i => i | .error e => e.stream_id) ∧
    (handle_stream_termination st stream_result).pending_streams =
      removeKey st.pending_streams
        (match stream_result with | .ok i => i | .error e => e.stream_id) ∧
    (handle_stream_termination st stream_result).subnet_subscriptions =
      st.subnet_subscriptions ∧
    (handle_stream_termination st stream_result).transient_streams =
      st.transient_streams := by
  refine ⟨fun i k => by cases k <;> rfl, ?_⟩
  match stream_result with
  | .ok i => exact ⟨rfl, rfl, rfl, rfl⟩
  | .error ⟨i, k⟩ => cases k <;> exact ⟨rfl, rfl, rfl, rfl⟩

/-- For a single response of the `ReadySubscribeReq` loop, a
`ReadySubscription` confirmation for `p` is emitted exactly when a
`DeliverySubscription` confirmation for `p` is. -/
theorem mem_ready_iff_delivery_single (p : PeerId)
    (result : Except NetworkError NetworkMessage) :
    ((⟨p, SampleType.ReadySubscription⟩ : ConfirmPeerCmd) ∈
        process_ready_subscribe_response result ↔
      (⟨p, SampleType.DeliverySubscription⟩ : ConfirmPeerCmd) ∈
        process_ready_subscribe_response result) := by
  match result with
  | .error e => simp [process_ready_subscribe_response]
  | .ok (NetworkMessage.Cmd (TrbpCommands.OnEchoSubscribeReq q)) =>
    simp [process_ready_subscribe_response]
  | .ok (NetworkMessage.Cmd (TrbpCommands.OnEchoSubscribeOk q)) =>
    simp [process_ready_subscribe_response]
  | .ok (NetworkMessage.Cmd (TrbpCommands.OnReadySubscribeReq q)) =>
    simp [process_ready_subscribe_response]
  | .ok (NetworkMessage.Cmd (TrbpCommands.OnDoubleEchoOk q)) =>
    simp [process_ready_subscribe_response]
  | .ok (NetworkMessage.Cmd (TrbpCommands.OnReadySubscribeOk q)) =>
    simp [process_ready_subscribe_response, ConfirmPeerCmd.mk.injEq]

/-- C6: processing an `OnReadySubscribeOk` response from peer `p` issues a
`ConfirmPeer` for `p` in `ReadySubscription` and then a `ConfirmPeer` for `p`
in `DeliverySubscription`; over a whole response batch, a ready-confirmation
for `p` is issued exactly when a delivery-confirmation for `p` is. -/
theorem ready_confirmation_implies_delivery_confirmation (p : PeerId)
    (results : List (Except NetworkError NetworkMessage)) :
    process_ready_subscribe_response
        (.ok (NetworkMessage.Cmd (TrbpCommands.OnReadySubscribeOk p))) =
      [{ peer := p, sample_type := SampleType.ReadySubscription },
       { peer := p, sample_type := SampleType.DeliverySubscription }] ∧
    ((⟨p, SampleType.ReadySubscription⟩ : ConfirmPeerCmd) ∈
        process_ready_subscribe_results results ↔
      (⟨p, SampleType.DeliverySubscription⟩ : ConfirmPeerCmd) ∈
        process_ready_subscribe_results results) := by
  refine ⟨rfl, ?_⟩
  simp only [process_ready_subscribe_results, List.mem_flatten, List.mem_map]
  constructor
  · rintro ⟨l, ⟨r, hr, rfl⟩, hm⟩
    exact ⟨_, ⟨r, hr, rfl⟩, (mem_ready_iff_delivery_single p r).1 hm⟩
  · rintro ⟨l, ⟨r, hr, rfl⟩, hm⟩
    exact ⟨_, ⟨r, hr, rfl⟩, (mem_ready_iff_delivery_single p r).2 hm⟩

/-- C3: on `GetSourceHead`, when storage reports `MissingHeadForSubnet` for the
requested subnet the handler replies `Ok` with position 0 and the sentinel
dummy certificate (source is the requested subnet, `id` and `prev_id` are the
dummy initial certificate id); any other storage failure is mapped to the
typed `UnableToGetSourceHead` error. -/
theorem get_source_head_spec (subnet_id : UciSubnetId)
    (storage_result : Except StorageError (Nat × Certificate)) :
    (storage_result =
        .error (.InternalStorage (.MissingHeadForSubnet subnet_id)) →
      on_get_source_head subnet_id storage_result =
        .ok (0, dummy_head_certificate subnet_id) ∧
      (dummy_head_certificate subnet_id).source_subnet_id = subnet_id ∧
      (dummy_head_certificate subnet_id).id = DUMMY_INITIAL_CERTIFICATE_ID ∧
      (dummy_head_certificate subnet_id).prev_id = DUMMY_INITIAL_CERTIFICATE_ID) ∧
    (∀ e, storage_result = .error e →
      (∀ sid, e ≠ .InternalStorage (.MissingHeadForSubnet sid)) →
      ∃ msg, on_get_source_head subnet_id storage_result =
        .error (.UnableToGetSourceHead subnet_id msg)) := by
  constructor
  · intro h
    subst h
    exact ⟨rfl, rfl, rfl, rfl⟩
  · intro e he hne
    subst he
    match e with
    | .InternalStorage .InvalidSubnetId => exact ⟨_, rfl⟩
    | .InternalStorage (.MissingHeadForSubnet sid) => exact absurd rfl (hne sid)
    | .InternalStorage (.OtherInternal msg) => exact ⟨_, rfl⟩
    | .OtherStorage msg => exact ⟨_, rfl⟩

theorem get_source_head_spec_witness :
    (on_get_source_head 7 (.error (.InternalStorage (.MissingHeadForSubnet 7))) =
      .ok (0, dummy_head_certificate 7) ∧
     (dummy_head_certificate 7).source_subnet_id = 7 ∧
     (dummy_head_certificate 7).id = DUMMY_INITIAL_CERTIFICATE_ID ∧
     (dummy_head_certificate 7).prev_id = DUMMY_INITIAL_CERTIFICATE_ID) ∧
    (∃ msg, on_get_source_head 7 (.error (.OtherStorage "disk failure")) =
      .error (.UnableToGetSourceHead 7 msg)) :=
  ⟨(get_source_head_spec 7 _).1 rfl,
   (get_source_head_spec 7 _).2 _ rfl (fun _ h => StorageError.noConfusion h)⟩

/-- C1 (refuting evidence): on a successful peer-list push the `PeerListPushed`
handler sets the active-sample flag and emits `StableSample` as soon as
`peer_changed` returns `Ok`, that is while every freshly drawn candidate is
still `Pending` and none is `Confirmed` — before the drawn candidates have
been confirmed. -/
theorem peer_list_pushed_premature_stable_sample :
    (on_peer_list_pushed (.ok [1, 2, 3]) true).events = [Events.StableSample] ∧
    (on_peer_list_pushed (.ok [1, 2, 3]) true).active_sample_set = some true ∧
    (on_peer_list_pushed (.ok [1, 2, 3]) true).reply = .ok () ∧
    (sampler_peer_changed [1, 2, 3]).pending = [1, 2, 3] ∧
    (sampler_peer_changed [1, 2, 3]).confirmed = [] := by
  exact ⟨rfl, rfl, rfl, rfl, rfl⟩

/-- C4: during `DispatchCertificate` handling, every `PushCertificate` send
goes to a stream that is in `active_streams` and is subscribed (via
`subnet_subscriptions`) to a target subnet of the certificate whose position
entry is present; and for a target subnet whose entry is missing from the
position map, the per-subnet dispatch sends nothing to any subscriber. -/
theorem dispatch_certificate_spec (st : RuntimeState) (certificate : Certificate)
    (positions : List (UciSubnetId × TargetStreamPosition)) :
    (∀ s ∈ handle_dispatch_certificate st certificate positions,
      (∃ sender, (s.1, sender) ∈ st.active_streams) ∧
      ∃ t, t ∈ certificate.target_subnets ∧ s.1 ∈ st.subscribers t ∧
        ∃ p, lookupPosition positions t = some p ∧
          s.2 = StreamCommand.PushCertificate certificate [p]) ∧
    (∀ t subscribers, lookupPosition positions t = none →
      dispatch_for_subnet certificate (lookupPosition positions t) subscribers
        st.active_streams = []) := by
  constructor
  · intro s hs
    simp only [handle_dispatch_certificate, List.mem_flatMap] at hs
    obtain ⟨t, ht, hsin⟩ := hs
    rw [List.mem_dedup] at ht
    cases hsub : st.subnet_subscriptions.find? (fun e => e.1 = t) with
    | none => rw [hsub] at hsin; cases hsin
    | some e =>
      rw [hsub] at hsin
      simp only [dispatch_for_subnet, List.mem_filterMap] at hsin
      obtain ⟨u, hu, hf⟩ := hsin
      cases hact : st.active_streams.find? (fun e2 => e2.1 = u) with
      | none => rw [hact] at hf; cases hf
      | some a =>
        rw [hact] at hf
        cases hpos : lookupPosition positions t with
        | none => rw [hpos] at hf; cases hf
        | some p =>
          rw [hpos] at hf
          injection hf with hf
          subst hf
          have ha : a.1 = u := by
            have := List.find?_some hact
            simpa using this
          have hamem : a ∈ st.active_streams := List.mem_of_find?_eq_some hact
          refine ⟨⟨a.2, ?_⟩, t, ht, ?_, p, hpos, rfl⟩
          · rw [← ha]
            simpa using hamem
          · simpa only [RuntimeState.subscribers, hsub] using hu
  · intro t subscribers h
    rw [h]
    simp only [dispatch_for_subnet]
    rw [List.filterMap_eq_nil_iff]
    intro u _
    cases st.active_streams.find? (fun e => e.1 = u) <;> rfl

/-- Concrete runtime state for the C4 witness: one active stream (uuid 10)
subscribed to subnets 1 and 2, a dispatch whose position map covers subnet 1
but misses subnet 2. -/
def dispatchWitnessState : RuntimeState :=
  { active_streams := [(10, 0)]
    pending_streams := []
    subnet_subscriptions := [(1, [10]), (2, [10])]
    transient_streams := [] }

def dispatchWitnessPos : TargetStreamPosition :=
  { target_subnet_id := 1, source_subnet_id := 5, position := 0, certificate_id := some 42 }

def dispatchWitnessCert : Certificate :=
  { id := 42, prev_id := 41, source_subnet_id := 5, state_root := 0, tx_root_hash := 0
    target_subnets := [1, 2], verifier := 0, proof := 0, signature := 0 }

theorem dispatch_certificate_spec_witness :
    ((∃ sender, ((10 : Uuid), sender) ∈ dispatchWitnessState.active_streams) ∧
      ∃ t, t ∈ dispatchWitnessCert.target_subnets ∧
        (10 : Uuid) ∈ dispatchWitnessState.subscribers t ∧
        ∃ p, lookupPosition [(1, dispatchWitnessPos)] t = some p ∧
          ((10 : Uuid),
            StreamCommand.PushCertificate dispatchWitnessCert [dispatchWitnessPos]).2 =
            StreamCommand.PushCertificate dispatchWitnessCert [p]) ∧
    dispatch_for_subnet dispatchWitnessCert (lookupPosition [(1, dispatchWitnessPos)] 2)
      [10] dispatchWitnessState.active_streams = [] :=
  ⟨(dispatch_certificate_spec dispatchWitnessState dispatchWitnessCert
      [(1, dispatchWitnessPos)]).1
      ((10 : Uuid), StreamCommand.PushCertificate dispatchWitnessCert [dispatchWitnessPos])
      (by decide),
   (dispatch_certificate_spec dispatchWitnessState dispatchWitnessCert
      [(1, dispatchWitnessPos)]).2 2 [10] (by decide)⟩

/-- The lossy decoder undoes the encoding of one scalar value at the head of a
byte stream. -/
theorem utf8LossyLoop_encodeChar (c : Nat) (hc : ScalarValue c) (bs : List Nat) :
    utf8LossyLoop none (utf8EncodeChar c ++ bs) = c :: utf8LossyLoop none bs := by
  obtain ⟨hlt, hsur⟩ := hc
  by_cases h1 : c < 0x80
  · rw [utf8EncodeChar, if_pos h1]
    simp [utf8LossyLoop, utf8LossyStep, h1]
  · by_cases h2 : c < 0x800
    · rw [utf8EncodeChar, if_neg h1, if_pos h2]
      have c1 : ¬(0xC0 + c / 64 < 0x80) := by omega
      have c2 : 0xC2 ≤ 0xC0 + c / 64 ∧ 0xC0 + c / 64 < 0xE0 := by omega
      have c3 : 0x80 ≤ 0x80 + c % 64 ∧ 0x80 + c % 64 < 0xC0 := by omega
      have harith : c / 64 * 64 + c % 64 = c := by omega
      simp [utf8LossyLoop, utf8LossyStep, c1, c2.1, c2.2, c3.1, c3.2, harith]
    · by_cases h3 : c < 0x10000
      · rw [utf8EncodeChar, if_neg h1, if_neg h2, if_pos h3]
        have c1 : ¬(0xE0 + c / 4096 < 0x80) := by omega
        have c2 : ¬(0xE0 + c / 4096 < 0xE0) := by omega
        have c3 : 0xE0 + c / 4096 < 0xF0 := by omega
        have c4 : 0x80 + c / 64 % 64 < 0xC0 := by omega
        have c5 : 0x80 + c % 64 < 0xC0 := by omega
        have harith : (c / 4096 * 64 + c / 64 % 64) * 64 + c % 64 = c := by omega
        simp [utf8LossyLoop, utf8LossyStep, c1, c2, c3, c4, c5, harith]
      · rw [utf8EncodeChar, if_neg h1, if_neg h2, if_neg h3]
        have c1 : ¬(0xF0 + c / 262144 < 0x80) := by omega
        have c2 : ¬(0xF0 + c / 262144 < 0xE0) := by omega
        have c3 : ¬(0xF0 + c / 262144 < 0xF0) := by omega
        have c4 : 0xF0 + c / 262144 < 0xF5 := by omega
        have c5 : 0x80 + c / 4096 % 64 < 0xC0 := by omega
        have c6 : 0x80 + c / 64 % 64 < 0xC0 := by omega
        have c7 : 0x80 + c % 64 < 0xC0 := by omega
        have harith :
            ((c / 262144 * 64 + c / 4096 % 64) * 64 + c / 64 % 64) * 64 + c % 64 = c := by
          omega
        simp [utf8LossyLoop, utf8LossyStep, c1, c2, c3, c4, c5, c6, c7, harith]

/-- Decoding after encoding is the identity on lists of scalar values: the
byte view of a Rust `&str` decodes back to the same string. -/
theorem from_utf8_lossy_utf8Encode (s : List Nat) (hs : ∀ c ∈ s, ScalarValue c) :
    from_utf8_lossy (utf8Encode s) = s := by
  induction s with
  | nil => rfl
  | cons c cs ih =>
    have hc : ScalarValue c := hs c (List.mem_cons_self c cs)
    have hcs : ∀ x ∈ cs, ScalarValue x := fun x hx => hs x (List.mem_cons_of_mem c hx)
    show utf8LossyLoop none (utf8Encode (c :: cs)) = c :: cs
    have : utf8Encode (c :: cs) = utf8EncodeChar c ++ utf8Encode cs := by
      simp [utf8Encode]
    rw [this, utf8LossyLoop_encodeChar c hc]
    exact congrArg (c :: ·) (ih hcs)

/-- C10: `SubnetId::try_from(&str)` succeeds exactly when the UTF-8 encoding
of the string is 32 bytes long; on success the stored bytes equal the string
bytes and `to_string` gives back the original string, and the second
`InvalidSubnetId` branch (the byte-array conversion) cannot fire once the
length check has passed; otherwise the string is rejected with
`InvalidSubnetId`. -/
theorem subnet_id_try_from_spec (s : List Nat) (hs : ∀ c ∈ s, ScalarValue c) :
    ((∃ sid, SubnetId.try_from s = .ok sid) ↔ (utf8Encode s).length = 32) ∧
    ((utf8Encode s).length = 32 →
      SubnetId.try_from s = .ok ⟨utf8Encode s⟩ ∧
      SubnetId.to_string ⟨utf8Encode s⟩ = s ∧
      sliceTryInto32 (utf8Encode s) = .ok (utf8Encode s)) ∧
    ((utf8Encode s).length ≠ 32 →
      SubnetId.try_from s = .error .InvalidSubnetId) := by
  by_cases h : (utf8Encode s).length = 32
  · refine ⟨⟨fun _ => h, fun _ => ?_⟩, fun _ => ⟨?_, ?_, ?_⟩, fun hn => absurd h hn⟩
    · exact ⟨⟨utf8Encode s⟩, by simp [SubnetId.try_from, sliceTryInto32, h]⟩
    · simp [SubnetId.try_from, sliceTryInto32, h]
    · exact from_utf8_lossy_utf8Encode s hs
    · simp [sliceTryInto32, h]
  · refine ⟨⟨?_, fun hl => absurd hl h⟩, fun hl => absurd hl h, fun _ => ?_⟩
    · rintro ⟨sid, hok⟩
      rw [SubnetId.try_from] at hok
      simp only [if_pos h] at hok  -- condition is `length ≠ 32`
      cases hok
    · simp [SubnetId.try_from, h]

theorem subnet_id_try_from_spec_witness :
    (SubnetId.try_from (List.replicate 32 97) =
        .ok ⟨utf8Encode (List.replicate 32 97)⟩ ∧
      SubnetId.to_string ⟨utf8Encode (List.replicate 32 97)⟩ = List.replicate 32 97 ∧
      sliceTryInto32 (utf8Encode (List.replicate 32 97)) =
        .ok (utf8Encode (List.replicate 32 97))) ∧
    SubnetId.try_from (955 :: List.replicate 31 97) = .error .InvalidSubnetId :=
  ⟨(subnet_id_try_from_spec (List.replicate 32 97) (by decide)).2.1 (by decide),
   (subnet_id_try_from_spec (955 :: List.replicate 31 97) (by decide)).2.2 (by decide)⟩

end Topos
